import Mathlib

/-!
Verification of the drysql update compiler and statement-executor wrappers.

The repository holds near-duplicate revisions of one Go module:
`drysql.go` (revision v1) and the two unnamed files (part_000, and
part_001 = revision v2, which adds `defer stmtOut.Close()`, the optional
logger, the `" AND "` separator for the extra filter, and returns nil
instead of an error when there is nothing to update).

The shallow embedding models a struct passed to `UpdateTableRowFromStruct`
as a list of fields. Each field carries its `db` tag (empty string = no
tag) and the outcome of `driver.DefaultParameterConverter.ConvertValue` on
its value: an error, an absent (nil driver) value, or a concrete driver
value. The compiler is a fold over the fields exactly mirroring the Go
loop, and returns either an error or the list of executor calls it makes
(each call a query string with its positional arguments, `none` standing
for a nil driver value). `Except.error` means the function returned before
reaching `PreparedExec`, so an error result carries zero executor calls.
-/

/-- Driver values produced by a successful, non-nil value conversion. -/
inductive Value where
  | int64 (i : Int)
  | str (s : String)
  | boolVal (b : Bool)
deriving DecidableEq, Repr

/-- One struct field: its `db` tag and the result of driver value
conversion on the field's value (`.ok none` = nil driver value). -/
structure StructField where
  tag : String
  conv : Except String (Option Value)
deriving Repr

/-- Whether a field's value conversion succeeded (possibly as absent). -/
def isOkConv (f : StructField) : Bool :=
  match f.conv with
  | .ok _ => true
  | .error _ => false

/-- Model of Go `strings.EqualFold` restricted to its ASCII behaviour:
the two strings agree character by character after lower-casing. -/
def eqFold (a b : String) : Bool :=
  a.data.map Char.toLower == b.data.map Char.toLower

/-- The mutable locals of the `UpdateTableRowFromStruct` loop. -/
structure LoopState where
  columnsToUpdate : String
  inputs : List (Option Value)
  rowIdentifierValue : Option Value
deriving Repr

/-- The field loop shared verbatim by both revisions of
`UpdateTableRowFromStruct`: convert the value first (an error aborts),
skip nil values, skip untagged fields, route identifier-tagged fields
(case-insensitive match) into `rowIdentifierValue` (overwriting), and
append every other tagged field to the SET clause and argument list. -/
def processFields (rowIdentifierTag : String) : List StructField → LoopState → Except String LoopState
  | [], st => .ok st
  | f :: rest, st =>
    match f.conv with
    | .error e => .error e
    | .ok none => processFields rowIdentifierTag rest st
    | .ok (some v) =>
      if f.tag = "" then
        processFields rowIdentifierTag rest st
      else if eqFold f.tag rowIdentifierTag then
        processFields rowIdentifierTag rest { st with rowIdentifierValue := some v }
      else
        processFields rowIdentifierTag rest
          { columnsToUpdate :=
              (if st.columnsToUpdate ≠ "" then st.columnsToUpdate ++ ", " else st.columnsToUpdate)
                ++ f.tag ++ " = ?",
            inputs := st.inputs ++ [some v],
            rowIdentifierValue := st.rowIdentifierValue }

/-- Revision v2 (part_001) of `UpdateTableRowFromStruct`: returns the list
of `PreparedExec` calls performed, or the error returned beforehand.
Empty update: returns nil with no executor call. A non-empty
`optionalConditional` is appended after `" AND "`. -/
def updateTableRowFromStruct_v2 (tableName rowIdentifierTag : String)
    (updateStruct : List StructField) (optionalConditional : String) :
    Except String (List (String × List (Option Value))) :=
  match processFields rowIdentifierTag updateStruct ⟨"", [], none⟩ with
  | .error e => .error e
  | .ok st =>
    if st.inputs.length = 0 then .ok []
    else
      .ok [("UPDATE " ++ tableName ++ " SET " ++ st.columnsToUpdate ++ " WHERE "
              ++ rowIdentifierTag ++ " = ?"
              ++ (if optionalConditional.length > 0 then " AND " ++ optionalConditional
                  else optionalConditional),
            st.inputs ++ [st.rowIdentifierValue])]

/-- Revision v1 (drysql.go) of `UpdateTableRowFromStruct`: returns the
error "drysql: no fields to update" when nothing is assignable, and
appends `fixedConditional` to the query text with no separator. -/
def updateTableRowFromStruct_v1 (tableName rowIdentifierKey : String)
    (updateStruct : List StructField) (fixedConditional : String) :
    Except String (List (String × List (Option Value))) :=
  match processFields rowIdentifierKey updateStruct ⟨"", [], none⟩ with
  | .error e => .error e
  | .ok st =>
    if st.inputs.length = 0 then .error "drysql: no fields to update"
    else
      .ok [("UPDATE " ++ tableName ++ " SET " ++ st.columnsToUpdate ++ " WHERE "
              ++ rowIdentifierKey ++ " = ?" ++ fixedConditional,
            st.inputs ++ [st.rowIdentifierValue])]

/-- Declarative view of the loop: the (column, value) pairs that end up in
the SET clause, in field declaration order. -/
def assignable (rowIdentifierTag : String) (fs : List StructField) : List (String × Value) :=
  fs.filterMap fun f =>
    match f.conv with
    | .ok (some v) =>
      if f.tag = "" then none
      else if eqFold f.tag rowIdentifierTag then none
      else some (f.tag, v)
    | _ => none

/-- Declarative view of the loop: the non-absent values of
identifier-tagged fields, in field declaration order. -/
def idValues (rowIdentifierTag : String) (fs : List StructField) : List Value :=
  fs.filterMap fun f =>
    match f.conv with
    | .ok (some v) =>
      if f.tag = "" then none
      else if eqFold f.tag rowIdentifierTag then some v
      else none
    | _ => none

/-- The incremental SET-clause construction of the Go loop, as a fold over
the assignable column names. -/
def appendClause (s : String) (cols : List String) : String :=
  cols.foldl (fun acc c => (if acc ≠ "" then acc ++ ", " else acc) ++ c ++ " = ?") s

/-- The repeated-overwrite assignment of `rowIdentifierValue` in the loop:
the last element of `l` when `l` is non-empty, otherwise `init`. -/
def lastSome (l : List Value) (init : Option Value) : Option Value :=
  l.foldl (fun _ v => some v) init

/-- The complete SET clause a record compiles to. -/
def setClause (rowIdentifierTag : String) (fs : List StructField) : String :=
  appendClause "" ((assignable rowIdentifierTag fs).map Prod.fst)

/-- The complete positional argument list a record compiles to: the
assignable values in order, then the identifier value (nil when no
identifier-tagged field was non-absent). -/
def argsOf (rowIdentifierTag : String) (fs : List StructField) : List (Option Value) :=
  (assignable rowIdentifierTag fs).map (fun p => some p.2)
    ++ [lastSome (idValues rowIdentifierTag fs) none]

/-- The full query text assembled by revision v2. -/
def mkQueryV2 (tableName rowIdentifierTag clause optionalConditional : String) : String :=
  "UPDATE " ++ tableName ++ " SET " ++ clause ++ " WHERE " ++ rowIdentifierTag ++ " = ?"
    ++ (if optionalConditional.length > 0 then " AND " ++ optionalConditional
        else optionalConditional)

/-- Count of `?` placeholder characters in a piece of query text. -/
def countQ (s : String) : Nat := s.toList.count '?'

/-- Observable actions an operation performs against the sql package, in
the order they happen before the operation returns. -/
inductive Event where
  | prepareEv (q : String)
  | execEv
  | queryEv
  | queryRowEv
  | scanEv
  | closeStmtEv
  | closeRowsEv
deriving DecidableEq, Repr

/-- Outcomes the surrounding environment chooses for a `PreparedExec`
call: whether `Prepare` fails and whether `Stmt.Exec` fails. -/
structure ExecEnv where
  prepareErr : Option String
  execErr : Option String
deriving Repr

/-- Outcomes the environment chooses for a `QueryRow` call. -/
structure QueryRowEnv where
  prepareErr : Option String
  scanErr : Option String
deriving Repr

/-- Outcomes the environment chooses for a `PreparedQuery` call: prepare
and query outcomes, the per-row scanner outcomes, and `rows.Err()`. -/
structure QueryEnv where
  prepareErr : Option String
  queryErr : Option String
  rowScans : List (Option String)
  rowsErr : Option String
deriving Repr

/-- Revision v2 (part_001) `PreparedExec`: prepare, and on success
`defer stmtOut.Close()` runs after `stmtOut.Exec` when the call returns. -/
def preparedExecTrace_v2 (q : String) (env : ExecEnv) : List Event × Option String :=
  match env.prepareErr with
  | some e => ([Event.prepareEv q], some e)
  | none => ([Event.prepareEv q, Event.execEv, Event.closeStmtEv], env.execErr)

/-- Revisions v1/v0 (drysql.go and part_000) `PreparedExec`: prepare then
exec, with no `Close` call on any path. -/
def preparedExecTrace_v1 (q : String) (env : ExecEnv) : List Event × Option String :=
  match env.prepareErr with
  | some e => ([Event.prepareEv q], some e)
  | none => ([Event.prepareEv q, Event.execEv], env.execErr)

/-- Revision v2 `QueryRow`: prepare, deferred close, `stmt.QueryRow` (which
itself reports no error), `row.Scan`, then the deferred close. -/
def queryRowTrace_v2 (q : String) (env : QueryRowEnv) : List Event × Option String :=
  match env.prepareErr with
  | some e => ([Event.prepareEv q], some e)
  | none => ([Event.prepareEv q, Event.queryRowEv, Event.scanEv, Event.closeStmtEv], env.scanErr)

/-- The `for rows.Next()` loop body: scan each row with the caller's
scanner, stopping at the first scanner error. -/
def runRows : List (Option String) → List Event × Option String
  | [] => ([], none)
  | o :: rest =>
    match o with
    | some e => ([Event.scanEv], some e)
    | none =>
      let p := runRows rest
      (Event.scanEv :: p.1, p.2)

/-- Revision v2 `PreparedQuery`: prepare with deferred statement close,
query with deferred rows close, iterate rows through the scanner, then
`rows.Err()`; the deferred closes run in LIFO order on every return. -/
def preparedQueryTrace_v2 (q : String) (env : QueryEnv) : List Event × Option String :=
  match env.prepareErr with
  | some e => ([Event.prepareEv q], some e)
  | none =>
    match env.queryErr with
    | some e => ([Event.prepareEv q, Event.queryEv, Event.closeStmtEv], some e)
    | none =>
      let p := runRows env.rowScans
      ([Event.prepareEv q, Event.queryEv] ++ p.1 ++ [Event.closeRowsEv, Event.closeStmtEv],
       match p.2 with
       | some e => some e
       | none => env.rowsErr)

/-- Revision v2 `UpdateTableRowFromStruct` composed with the
`PreparedExec` it calls: the sql-package events of one invocation. -/
def updateTrace_v2 (tableName rowIdentifierTag : String) (fs : List StructField)
    (optionalConditional : String) (env : ExecEnv) : List Event × Option String :=
  match updateTableRowFromStruct_v2 tableName rowIdentifierTag fs optionalConditional with
  | .error e => ([], some e)
  | .ok [] => ([], none)
  | .ok ((q, _) :: _) => preparedExecTrace_v2 q env

/-- Core refinement: when every field's value conversion succeeds, the Go
loop computes exactly the declarative clause, inputs and identifier value,
starting from any loop state. -/
theorem processFields_ok (rowIdentifierTag : String) (fs : List StructField)
    (h : ∀ f ∈ fs, isOkConv f = true) (st : LoopState) :
    processFields rowIdentifierTag fs st =
      .ok ⟨appendClause st.columnsToUpdate ((assignable rowIdentifierTag fs).map Prod.fst),
           st.inputs ++ (assignable rowIdentifierTag fs).map (fun p => some p.2),
           lastSome (idValues rowIdentifierTag fs) st.rowIdentifierValue⟩ := by
  induction fs generalizing st with
  | nil => simp [processFields, assignable, idValues, appendClause, lastSome]
  | cons f rest ih =>
    have hf : isOkConv f = true := h f (by simp)
    have hrest : ∀ g ∈ rest, isOkConv g = true := fun g hg => h g (by simp [hg])
    match hconv : f.conv with
    | .error e => simp [isOkConv, hconv] at hf
    | .ok none =>
      simp [processFields, assignable, idValues, hconv, List.filterMap_cons, ih hrest]
    | .ok (some v) =>
      by_cases ht : f.tag = ""
      · simp [processFields, assignable, idValues, hconv, ht, List.filterMap_cons, ih hrest]
      · by_cases hid : eqFold f.tag rowIdentifierTag
        · simp [processFields, assignable, idValues, hconv, ht, hid, List.filterMap_cons,
                ih hrest, lastSome]
        · simp [processFields, assignable, idValues, hconv, ht, hid, List.filterMap_cons,
                ih hrest, appendClause]

/-- The loop propagates the first conversion error: fields before it must
convert, everything after it is never reached. -/
theorem processFields_error (rowIdentifierTag : String) (l₁ : List StructField)
    (f : StructField) (l₂ : List StructField) (e : String)
    (hok : ∀ g ∈ l₁, isOkConv g = true) (he : f.conv = .error e) (st : LoopState) :
    processFields rowIdentifierTag (l₁ ++ f :: l₂) st = .error e := by
  induction l₁ generalizing st with
  | nil => simp [processFields, he]
  | cons g rest ih =>
    have hg : isOkConv g = true := hok g (by simp)
    have hrest : ∀ x ∈ rest, isOkConv x = true := fun x hx => hok x (by simp [hx])
    match hconv : g.conv with
    | .error e' => simp [isOkConv, hconv] at hg
    | .ok none => simp [processFields, hconv, ih hrest]
    | .ok (some v) =>
      by_cases ht : g.tag = "" <;> by_cases hid : eqFold g.tag rowIdentifierTag <;>
        simp [processFields, hconv, ht, hid, ih hrest]

/-- The overwrite fold keeps the last element when there is one. -/
theorem lastSome_or (l : List Value) (init : Option Value) :
    lastSome l init = l.getLast?.or init := by
  induction l generalizing init with
  | nil => simp [lastSome]
  | cons v l ih =>
    cases l with
    | nil => simp [lastSome]
    | cons w ws =>
      have h1 : lastSome (v :: w :: ws) init = lastSome (w :: ws) (some v) := rfl
      rw [h1, ih, List.getLast?_cons_cons]
      rcases hx : (w :: ws).getLast? with _ | x
      · simp [List.getLast?_eq_none_iff] at hx
      · simp [Option.or]

/-- Every assignable pair takes its column text from some field's tag and
never matches the identifier column. -/
theorem assignable_mem (rowIdentifierTag : String) (fs : List StructField)
    (p : String × Value) (hp : p ∈ assignable rowIdentifierTag fs) :
    (∃ f ∈ fs, p.1 = f.tag) ∧ eqFold p.1 rowIdentifierTag = false := by
  rw [assignable, List.mem_filterMap] at hp
  obtain ⟨f, hf, hmatch⟩ := hp
  match hconv : f.conv with
  | .error e => rw [hconv] at hmatch; simp at hmatch
  | .ok none => rw [hconv] at hmatch; simp at hmatch
  | .ok (some v) =>
    rw [hconv] at hmatch
    simp only at hmatch
    split_ifs at hmatch with h1 h2
    cases hmatch
    exact ⟨⟨f, hf, rfl⟩, by simp [Bool.not_eq_true] at h2; exact h2⟩

/-- Counting placeholder characters distributes over string append. -/
theorem countQ_append (a b : String) : countQ (a ++ b) = countQ a + countQ b := by
  cases a with
  | mk da =>
    cases b with
    | mk db =>
      show (da ++ db).count '?' = da.count '?' + db.count '?'
      exact List.count_append ..

/-- When no column name contains a `?`, the SET clause holds exactly one
placeholder per assignment. -/
theorem countQ_appendClause (cols : List String) (hc : ∀ c ∈ cols, countQ c = 0) :
    ∀ s : String, countQ (appendClause s cols) = countQ s + cols.length := by
  induction cols with
  | nil => intro s; simp [appendClause]
  | cons c cs ih =>
    intro s
    have hc0 : countQ c = 0 := hc c (by simp)
    have hcs : ∀ d ∈ cs, countQ d = 0 := fun d hd => hc d (by simp [hd])
    have h1 : appendClause s (c :: cs)
        = appendClause ((if s ≠ "" then s ++ ", " else s) ++ c ++ " = ?") cs := rfl
    rw [h1, ih hcs]
    have hcomma : countQ ", " = 0 := by decide
    have hq : countQ " = ?" = 1 := by decide
    have hnil : countQ "" = 0 := by decide
    by_cases hs : s = ""
    · simp [hs, countQ_append, hc0, hq, hnil]
      omega
    · simp [hs, countQ_append, hc0, hq, hcomma]
      omega

/-- Untagged fields whose conversion succeeds are invisible to the loop:
filtering them out of the record leaves the loop's result unchanged. -/
theorem processFields_filter_untagged (rowIdentifierTag : String) (fs : List StructField)
    (h : ∀ f ∈ fs, f.tag = "" → isOkConv f = true) (st : LoopState) :
    processFields rowIdentifierTag fs st =
      processFields rowIdentifierTag (fs.filter fun f => f.tag != "") st := by
  induction fs generalizing st with
  | nil => rfl
  | cons f rest ih =>
    have hrest : ∀ g ∈ rest, g.tag = "" → isOkConv g = true := fun g hg => h g (by simp [hg])
    by_cases ht : f.tag = ""
    · have hf : isOkConv f = true := h f (by simp) ht
      match hconv : f.conv with
      | .error e => simp [isOkConv, hconv] at hf
      | .ok none => simp [processFields, hconv, ht, List.filter_cons, ih hrest]
      | .ok (some v) => simp [processFields, hconv, ht, List.filter_cons, ih hrest]
    · match hconv : f.conv with
      | .error e => simp [processFields, hconv, List.filter_cons, ht]
      | .ok none => simp [processFields, hconv, List.filter_cons, ht, ih hrest]
      | .ok (some v) =>
        by_cases hid : eqFold f.tag rowIdentifierTag <;>
          simp [processFields, hconv, List.filter_cons, ht, hid, ih hrest]

/-- Revision v2 compilation on a record with at least one assignable field:
one executor call carrying the declarative query and argument list. -/
theorem updateV2_ok_spec (tableName rowIdentifierTag : String) (fs : List StructField)
    (cond : String) (hok : ∀ f ∈ fs, isOkConv f = true)
    (hne : assignable rowIdentifierTag fs ≠ []) :
    updateTableRowFromStruct_v2 tableName rowIdentifierTag fs cond =
      .ok [(mkQueryV2 tableName rowIdentifierTag (setClause rowIdentifierTag fs) cond,
            argsOf rowIdentifierTag fs)] := by
  unfold updateTableRowFromStruct_v2
  rw [processFields_ok rowIdentifierTag fs hok ⟨"", [], none⟩]
  simp [setClause, argsOf, mkQueryV2, hne]

/-- Revision v1 compilation on a record with at least one assignable field. -/
theorem updateV1_ok_spec (tableName rowIdentifierKey : String) (fs : List StructField)
    (cond : String) (hok : ∀ f ∈ fs, isOkConv f = true)
    (hne : assignable rowIdentifierKey fs ≠ []) :
    updateTableRowFromStruct_v1 tableName rowIdentifierKey fs cond =
      .ok [("UPDATE " ++ tableName ++ " SET " ++ setClause rowIdentifierKey fs ++ " WHERE "
              ++ rowIdentifierKey ++ " = ?" ++ cond,
            argsOf rowIdentifierKey fs)] := by
  unfold updateTableRowFromStruct_v1
  rw [processFields_ok rowIdentifierKey fs hok ⟨"", [], none⟩]
  simp [setClause, argsOf, hne]

/-- Revision v2 on a record with no assignable field: success, zero
executor calls. -/
theorem updateV2_empty (tableName rowIdentifierTag : String) (fs : List StructField)
    (cond : String) (hok : ∀ f ∈ fs, isOkConv f = true)
    (he : assignable rowIdentifierTag fs = []) :
    updateTableRowFromStruct_v2 tableName rowIdentifierTag fs cond = .ok [] := by
  unfold updateTableRowFromStruct_v2
  rw [processFields_ok rowIdentifierTag fs hok ⟨"", [], none⟩]
  simp [he]

/-- Revision v1 on a record with no assignable field: the explicit
"nothing to update" error, zero executor calls. -/
theorem updateV1_empty (tableName rowIdentifierKey : String) (fs : List StructField)
    (cond : String) (hok : ∀ f ∈ fs, isOkConv f = true)
    (he : assignable rowIdentifierKey fs = []) :
    updateTableRowFromStruct_v1 tableName rowIdentifierKey fs cond
      = .error "drysql: no fields to update" := by
  unfold updateTableRowFromStruct_v1
  rw [processFields_ok rowIdentifierKey fs hok ⟨"", [], none⟩]
  simp [he]

/-- The row-iteration loop never touches the statement handle. -/
theorem runRows_no_close (rows : List (Option String)) :
    (runRows rows).1.count Event.closeStmtEv = 0 := by
  induction rows with
  | nil => simp [runRows]
  | cons o rest ih =>
    cases o with
    | some e => simp [runRows]
    | none => simp [runRows, List.count_cons, ih]

/-- Claim C1, amended: on the record {user_id: 7, first_name: "Ann",
last_name: unset}, revision v2 (part_001) compiles exactly the claimed
queries and arguments for both the empty extra filter and
"active = 1"; revision v1 (drysql.go) agrees on the empty-filter case. -/
theorem c1_update_example :
    updateTableRowFromStruct_v2 "users" "user_id"
      [⟨"user_id", .ok (some (.int64 7))⟩, ⟨"first_name", .ok (some (.str "Ann"))⟩,
       ⟨"last_name", .ok none⟩] ""
      = .ok [("UPDATE users SET first_name = ? WHERE user_id = ?",
              [some (.str "Ann"), some (.int64 7)])]
    ∧ updateTableRowFromStruct_v2 "users" "user_id"
      [⟨"user_id", .ok (some (.int64 7))⟩, ⟨"first_name", .ok (some (.str "Ann"))⟩,
       ⟨"last_name", .ok none⟩] "active = 1"
      = .ok [("UPDATE users SET first_name = ? WHERE user_id = ? AND active = 1",
              [some (.str "Ann"), some (.int64 7)])]
    ∧ updateTableRowFromStruct_v1 "users" "user_id"
      [⟨"user_id", .ok (some (.int64 7))⟩, ⟨"first_name", .ok (some (.str "Ann"))⟩,
       ⟨"last_name", .ok none⟩] ""
      = .ok [("UPDATE users SET first_name = ? WHERE user_id = ?",
              [some (.str "Ann"), some (.int64 7)])] := by
  exact ⟨rfl, rfl, rfl⟩

/-- Claim C1 counterexample: revision v1 (drysql.go) appends the extra
filter with no separator, so with extraFilter = "active = 1" the produced
query text is not the claimed "... WHERE user_id = ? AND active = 1". -/
theorem c1_counterexample :
    updateTableRowFromStruct_v1 "users" "user_id"
      [⟨"user_id", .ok (some (.int64 7))⟩, ⟨"first_name", .ok (some (.str "Ann"))⟩,
       ⟨"last_name", .ok none⟩] "active = 1"
      = .ok [("UPDATE users SET first_name = ? WHERE user_id = ?active = 1",
              [some (.str "Ann"), some (.int64 7)])]
    ∧ "UPDATE users SET first_name = ? WHERE user_id = ?active = 1"
        ≠ "UPDATE users SET first_name = ? WHERE user_id = ? AND active = 1" := by
  exact ⟨rfl, by decide⟩

/-- Claim C2, amended: for every record whose fields all convert, whose
column tags contain no placeholder character, and with at least one
assignable field, revision v2 makes one executor call whose SET clause
holds one placeholder per argument except the trailing identifier value,
which is the argument list's last element. -/
theorem c2_placeholders (tableName rowIdentifierTag cond : String) (fs : List StructField)
    (hok : ∀ f ∈ fs, isOkConv f = true)
    (hne : assignable rowIdentifierTag fs ≠ [])
    (htags : ∀ f ∈ fs, countQ f.tag = 0) :
    updateTableRowFromStruct_v2 tableName rowIdentifierTag fs cond =
      .ok [(mkQueryV2 tableName rowIdentifierTag (setClause rowIdentifierTag fs) cond,
            argsOf rowIdentifierTag fs)]
    ∧ countQ (setClause rowIdentifierTag fs) = (argsOf rowIdentifierTag fs).length - 1
    ∧ (argsOf rowIdentifierTag fs).getLast?
        = some (lastSome (idValues rowIdentifierTag fs) none) := by
  refine ⟨updateV2_ok_spec tableName rowIdentifierTag fs cond hok hne, ?_, ?_⟩
  · have hcols : ∀ c ∈ (assignable rowIdentifierTag fs).map Prod.fst, countQ c = 0 := by
      intro c hc
      rw [List.mem_map] at hc
      obtain ⟨p, hp, hpc⟩ := hc
      obtain ⟨⟨f, hf, hpf⟩, _⟩ := assignable_mem rowIdentifierTag fs p hp
      rw [← hpc, hpf]
      exact htags f hf
    have hnil : countQ "" = 0 := by decide
    simp only [setClause, argsOf]
    rw [countQ_appendClause _ hcols ""]
    simp [hnil]
  · simp only [argsOf]
    rw [List.getLast?_concat]

/-- Claim C2 counterexample: a record whose column tag itself contains a
placeholder character compiles to a SET clause with two placeholders yet
only one pre-identifier argument, so the claimed count equation fails. -/
theorem c2_counterexample :
    updateTableRowFromStruct_v2 "t" "id"
      [⟨"a?", .ok (some (.int64 1))⟩, ⟨"id", .ok (some (.int64 7))⟩] ""
      = .ok [("UPDATE t SET a? = ? WHERE id = ?", [some (.int64 1), some (.int64 7)])]
    ∧ countQ (setClause "id" [⟨"a?", .ok (some (.int64 1))⟩, ⟨"id", .ok (some (.int64 7))⟩])
        ≠ ([some (Value.int64 1), some (Value.int64 7)] : List (Option Value)).length - 1 := by
  exact ⟨rfl, by decide⟩

/-- Witness for claim C2 at a concrete two-field record. -/
theorem c2_witness :
    (∀ f ∈ ([⟨"a", .ok (some (.int64 1))⟩, ⟨"id", .ok (some (.int64 7))⟩] : List StructField),
        isOkConv f = true)
    ∧ assignable "id" [⟨"a", .ok (some (.int64 1))⟩, ⟨"id", .ok (some (.int64 7))⟩] ≠ []
    ∧ (∀ f ∈ ([⟨"a", .ok (some (.int64 1))⟩, ⟨"id", .ok (some (.int64 7))⟩] : List StructField),
        countQ f.tag = 0)
    ∧ (updateTableRowFromStruct_v2 "t" "id"
        [⟨"a", .ok (some (.int64 1))⟩, ⟨"id", .ok (some (.int64 7))⟩] "" =
        .ok [(mkQueryV2 "t" "id"
                (setClause "id" [⟨"a", .ok (some (.int64 1))⟩, ⟨"id", .ok (some (.int64 7))⟩]) "",
              argsOf "id" [⟨"a", .ok (some (.int64 1))⟩, ⟨"id", .ok (some (.int64 7))⟩])]
      ∧ countQ (setClause "id" [⟨"a", .ok (some (.int64 1))⟩, ⟨"id", .ok (some (.int64 7))⟩])
          = (argsOf "id" [⟨"a", .ok (some (.int64 1))⟩, ⟨"id", .ok (some (.int64 7))⟩]).length - 1
      ∧ (argsOf "id" [⟨"a", .ok (some (.int64 1))⟩, ⟨"id", .ok (some (.int64 7))⟩]).getLast?
          = some (lastSome (idValues "id"
              [⟨"a", .ok (some (.int64 1))⟩, ⟨"id", .ok (some (.int64 7))⟩]) none)) := by
  exact ⟨by decide, by decide, by decide,
    c2_placeholders "t" "id" ""
      [⟨"a", .ok (some (.int64 1))⟩, ⟨"id", .ok (some (.int64 7))⟩]
      (by decide) (by decide) (by decide)⟩

/-- Claim C3, amended: identifier-tagged fields (case-insensitive match)
are always excluded from the SET clause and its arguments, and when
several non-absent fields match the identifier column, the LAST matching
field's value is recorded as the identifier value (each match overwrites
the previous one), not the first. -/
theorem c3_identifier_exclusion (rowIdentifierTag : String) (fs : List StructField)
    (hok : ∀ f ∈ fs, isOkConv f = true) :
    processFields rowIdentifierTag fs ⟨"", [], none⟩ =
      .ok ⟨setClause rowIdentifierTag fs,
           (assignable rowIdentifierTag fs).map (fun p => some p.2),
           (idValues rowIdentifierTag fs).getLast?⟩
    ∧ ∀ p ∈ assignable rowIdentifierTag fs, eqFold p.1 rowIdentifierTag = false := by
  constructor
  · rw [processFields_ok rowIdentifierTag fs hok ⟨"", [], none⟩]
    simp [setClause, lastSome_or]
  · intro p hp
    exact (assignable_mem rowIdentifierTag fs p hp).2

/-- Claim C3 counterexample: with two non-absent fields tagged for the
identifier column (values 7 then 9), the compiled argument list ends in 9,
the LAST match, not the first match's value 7 as the claim states. -/
theorem c3_counterexample :
    updateTableRowFromStruct_v2 "t" "id"
      [⟨"id", .ok (some (.int64 7))⟩, ⟨"ID", .ok (some (.int64 9))⟩,
       ⟨"a", .ok (some (.int64 1))⟩] ""
      = .ok [("UPDATE t SET a = ? WHERE id = ?", [some (.int64 1), some (.int64 9)])]
    ∧ ([some (Value.int64 1), some (Value.int64 9)] : List (Option Value)).getLast?
        ≠ some (some (Value.int64 7)) := by
  exact ⟨rfl, by decide⟩

/-- Witness for claim C3 at a record with duplicate identifier tags. -/
theorem c3_witness :
    (∀ f ∈ ([⟨"id", .ok (some (.int64 7))⟩, ⟨"ID", .ok (some (.int64 9))⟩,
             ⟨"a", .ok (some (.int64 1))⟩] : List StructField), isOkConv f = true)
    ∧ (processFields "id"
        [⟨"id", .ok (some (.int64 7))⟩, ⟨"ID", .ok (some (.int64 9))⟩,
         ⟨"a", .ok (some (.int64 1))⟩] ⟨"", [], none⟩ =
        .ok ⟨setClause "id"
               [⟨"id", .ok (some (.int64 7))⟩, ⟨"ID", .ok (some (.int64 9))⟩,
                ⟨"a", .ok (some (.int64 1))⟩],
             (assignable "id"
               [⟨"id", .ok (some (.int64 7))⟩, ⟨"ID", .ok (some (.int64 9))⟩,
                ⟨"a", .ok (some (.int64 1))⟩]).map (fun p => some p.2),
             (idValues "id"
               [⟨"id", .ok (some (.int64 7))⟩, ⟨"ID", .ok (some (.int64 9))⟩,
                ⟨"a", .ok (some (.int64 1))⟩]).getLast?⟩
      ∧ ∀ p ∈ assignable "id"
          [⟨"id", .ok (some (.int64 7))⟩, ⟨"ID", .ok (some (.int64 9))⟩,
           ⟨"a", .ok (some (.int64 1))⟩], eqFold p.1 "id" = false) := by
  exact ⟨by decide,
    c3_identifier_exclusion "id"
      [⟨"id", .ok (some (.int64 7))⟩, ⟨"ID", .ok (some (.int64 9))⟩,
       ⟨"a", .ok (some (.int64 1))⟩] (by decide)⟩

/-- Claim C4, amended: for every record whose fields all convert and with
no assignable field, revision v2 returns success with zero executor calls
and revision v1 returns the explicit "nothing to update" error with zero
executor calls; each revision behaves the same on all such inputs. A
record containing a field that fails conversion escapes this no-op rule. -/
theorem c4_noop (tableName rowIdentifierTag cond : String) (fs : List StructField)
    (hok : ∀ f ∈ fs, isOkConv f = true)
    (he : assignable rowIdentifierTag fs = []) :
    updateTableRowFromStruct_v2 tableName rowIdentifierTag fs cond = .ok []
    ∧ updateTableRowFromStruct_v1 tableName rowIdentifierTag fs cond
        = .error "drysql: no fields to update" := by
  exact ⟨updateV2_empty tableName rowIdentifierTag fs cond hok he,
         updateV1_empty tableName rowIdentifierTag fs cond hok he⟩

/-- Claim C4 counterexample: a record whose only field is untagged and
fails driver conversion has every tagged non-identifier field (vacuously)
absent, yet both revisions return the conversion error — neither the
success result nor the "nothing to update" error the claim allows. -/
theorem c4_counterexample :
    updateTableRowFromStruct_v2 "t" "id" [⟨"", .error "sql: unsupported type"⟩] ""
      = .error "sql: unsupported type"
    ∧ updateTableRowFromStruct_v1 "t" "id" [⟨"", .error "sql: unsupported type"⟩] ""
      = .error "sql: unsupported type"
    ∧ "sql: unsupported type" ≠ "drysql: no fields to update" := by
  exact ⟨rfl, rfl, by decide⟩

/-- Witness for claim C4 at a record whose only non-identifier field is
absent. -/
theorem c4_witness :
    (∀ f ∈ ([⟨"user_id", .ok (some (.int64 7))⟩, ⟨"first_name", .ok none⟩] : List StructField),
        isOkConv f = true)
    ∧ assignable "user_id" [⟨"user_id", .ok (some (.int64 7))⟩, ⟨"first_name", .ok none⟩] = []
    ∧ (updateTableRowFromStruct_v2 "users" "user_id"
        [⟨"user_id", .ok (some (.int64 7))⟩, ⟨"first_name", .ok none⟩] "" = .ok []
      ∧ updateTableRowFromStruct_v1 "users" "user_id"
          [⟨"user_id", .ok (some (.int64 7))⟩, ⟨"first_name", .ok none⟩] ""
          = .error "drysql: no fields to update") := by
  exact ⟨by decide, by decide,
    c4_noop "users" "user_id" ""
      [⟨"user_id", .ok (some (.int64 7))⟩, ⟨"first_name", .ok none⟩]
      (by decide) (by decide)⟩

/-- Claim C5: a record containing a field whose value fails driver
conversion makes both revisions return that conversion error immediately;
the error result carries no executor call (nothing is executed) and no
partial plan. -/
theorem c5_conversion_error (tableName rowIdentifierTag cond e : String)
    (l₁ l₂ : List StructField) (f : StructField)
    (hok : ∀ g ∈ l₁, isOkConv g = true) (he : f.conv = .error e) :
    updateTableRowFromStruct_v2 tableName rowIdentifierTag (l₁ ++ f :: l₂) cond = .error e
    ∧ updateTableRowFromStruct_v1 tableName rowIdentifierTag (l₁ ++ f :: l₂) cond
        = .error e := by
  have h := processFields_error rowIdentifierTag l₁ f l₂ e hok he ⟨"", [], none⟩
  constructor
  · unfold updateTableRowFromStruct_v2
    rw [h]
  · unfold updateTableRowFromStruct_v1
    rw [h]

/-- Witness for claim C5: a failing field placed after one good field and
before another. -/
theorem c5_witness :
    (∀ g ∈ ([⟨"a", .ok (some (.int64 1))⟩] : List StructField), isOkConv g = true)
    ∧ (⟨"b", .error "sql: unsupported type"⟩ : StructField).conv = .error "sql: unsupported type"
    ∧ (updateTableRowFromStruct_v2 "t" "id"
        ([⟨"a", .ok (some (.int64 1))⟩] ++ ⟨"b", .error "sql: unsupported type"⟩ ::
          [⟨"c", .ok (some (.int64 2))⟩]) "" = .error "sql: unsupported type"
      ∧ updateTableRowFromStruct_v1 "t" "id"
          ([⟨"a", .ok (some (.int64 1))⟩] ++ ⟨"b", .error "sql: unsupported type"⟩ ::
            [⟨"c", .ok (some (.int64 2))⟩]) "" = .error "sql: unsupported type") := by
  exact ⟨by decide, rfl,
    c5_conversion_error "t" "id" "" "sql: unsupported type"
      [⟨"a", .ok (some (.int64 1))⟩] [⟨"c", .ok (some (.int64 2))⟩]
      ⟨"b", .error "sql: unsupported type"⟩ (by decide) rfl⟩

/-- Claim C6, amended: fields with an absent or empty column tag whose
values pass driver conversion are skipped and never influence the query
text or argument list — deleting them from the record leaves both
revisions' results unchanged. An untagged field whose value FAILS
conversion still aborts the compilation with that error. -/
theorem c6_untagged_invisible (tableName rowIdentifierTag cond : String)
    (fs : List StructField)
    (h : ∀ f ∈ fs, f.tag = "" → isOkConv f = true) :
    updateTableRowFromStruct_v2 tableName rowIdentifierTag fs cond
      = updateTableRowFromStruct_v2 tableName rowIdentifierTag
          (fs.filter fun f => f.tag != "") cond
    ∧ updateTableRowFromStruct_v1 tableName rowIdentifierTag fs cond
      = updateTableRowFromStruct_v1 tableName rowIdentifierTag
          (fs.filter fun f => f.tag != "") cond := by
  have h2 := processFields_filter_untagged rowIdentifierTag fs h ⟨"", [], none⟩
  constructor
  · unfold updateTableRowFromStruct_v2
    rw [h2]
  · unfold updateTableRowFromStruct_v1
    rw [h2]

/-- Claim C6 counterexample: an untagged field whose value fails driver
conversion is not skipped silently — the compiler raises the conversion
error, while the same record without that untagged field succeeds. -/
theorem c6_counterexample :
    updateTableRowFromStruct_v2 "t" "id"
      [⟨"", .error "sql: unsupported type"⟩, ⟨"a", .ok (some (.int64 1))⟩,
       ⟨"id", .ok (some (.int64 7))⟩] ""
      = .error "sql: unsupported type"
    ∧ updateTableRowFromStruct_v2 "t" "id"
        [⟨"a", .ok (some (.int64 1))⟩, ⟨"id", .ok (some (.int64 7))⟩] ""
      = .ok [("UPDATE t SET a = ? WHERE id = ?", [some (.int64 1), some (.int64 7)])] := by
  exact ⟨rfl, rfl⟩

/-- Witness for claim C6 at a record holding a convertible untagged
field. -/
theorem c6_witness :
    (∀ f ∈ ([⟨"", .ok (some (.str "junk"))⟩, ⟨"a", .ok (some (.int64 1))⟩,
             ⟨"id", .ok (some (.int64 7))⟩] : List StructField),
        f.tag = "" → isOkConv f = true)
    ∧ (updateTableRowFromStruct_v2 "t" "id"
        [⟨"", .ok (some (.str "junk"))⟩, ⟨"a", .ok (some (.int64 1))⟩,
         ⟨"id", .ok (some (.int64 7))⟩] ""
        = updateTableRowFromStruct_v2 "t" "id"
            (([⟨"", .ok (some (.str "junk"))⟩, ⟨"a", .ok (some (.int64 1))⟩,
               ⟨"id", .ok (some (.int64 7))⟩] : List StructField).filter
              fun f => f.tag != "") ""
      ∧ updateTableRowFromStruct_v1 "t" "id"
          [⟨"", .ok (some (.str "junk"))⟩, ⟨"a", .ok (some (.int64 1))⟩,
           ⟨"id", .ok (some (.int64 7))⟩] ""
          = updateTableRowFromStruct_v1 "t" "id"
              (([⟨"", .ok (some (.str "junk"))⟩, ⟨"a", .ok (some (.int64 1))⟩,
                 ⟨"id", .ok (some (.int64 7))⟩] : List StructField).filter
                fun f => f.tag != "") "") := by
  exact ⟨by decide,
    c6_untagged_invisible "t" "id" ""
      [⟨"", .ok (some (.str "junk"))⟩, ⟨"a", .ok (some (.int64 1))⟩,
       ⟨"id", .ok (some (.int64 7))⟩] (by decide)⟩

/-- Claim C7: when assignment pairs exist, both revisions emit them and
their arguments exactly as `assignable` lists them — a filterMap over the
record's fields in declaration order, so encounter order is preserved in
the SET clause and the positional argument list. -/
theorem c7_declaration_order (tableName rowIdentifierTag cond : String)
    (fs : List StructField)
    (hok : ∀ f ∈ fs, isOkConv f = true)
    (hne : assignable rowIdentifierTag fs ≠ []) :
    updateTableRowFromStruct_v2 tableName rowIdentifierTag fs cond =
      .ok [(mkQueryV2 tableName rowIdentifierTag (setClause rowIdentifierTag fs) cond,
            argsOf rowIdentifierTag fs)]
    ∧ updateTableRowFromStruct_v1 tableName rowIdentifierTag fs cond =
      .ok [("UPDATE " ++ tableName ++ " SET " ++ setClause rowIdentifierTag fs ++ " WHERE "
              ++ rowIdentifierTag ++ " = ?" ++ cond,
            argsOf rowIdentifierTag fs)] := by
  exact ⟨updateV2_ok_spec tableName rowIdentifierTag fs cond hok hne,
         updateV1_ok_spec tableName rowIdentifierTag fs cond hok hne⟩

/-- Witness for claim C7 at a record whose fields are deliberately not in
alphabetical order. -/
theorem c7_witness :
    (∀ f ∈ ([⟨"b", .ok (some (.int64 2))⟩, ⟨"a", .ok (some (.int64 1))⟩,
             ⟨"id", .ok (some (.int64 7))⟩] : List StructField), isOkConv f = true)
    ∧ assignable "id"
        [⟨"b", .ok (some (.int64 2))⟩, ⟨"a", .ok (some (.int64 1))⟩,
         ⟨"id", .ok (some (.int64 7))⟩] ≠ []
    ∧ (updateTableRowFromStruct_v2 "t" "id"
        [⟨"b", .ok (some (.int64 2))⟩, ⟨"a", .ok (some (.int64 1))⟩,
         ⟨"id", .ok (some (.int64 7))⟩] "" =
        .ok [(mkQueryV2 "t" "id"
                (setClause "id"
                  [⟨"b", .ok (some (.int64 2))⟩, ⟨"a", .ok (some (.int64 1))⟩,
                   ⟨"id", .ok (some (.int64 7))⟩]) "",
              argsOf "id"
                [⟨"b", .ok (some (.int64 2))⟩, ⟨"a", .ok (some (.int64 1))⟩,
                 ⟨"id", .ok (some (.int64 7))⟩])]
      ∧ updateTableRowFromStruct_v1 "t" "id"
          [⟨"b", .ok (some (.int64 2))⟩, ⟨"a", .ok (some (.int64 1))⟩,
           ⟨"id", .ok (some (.int64 7))⟩] "" =
          .ok [("UPDATE " ++ "t" ++ " SET "
                  ++ setClause "id"
                      [⟨"b", .ok (some (.int64 2))⟩, ⟨"a", .ok (some (.int64 1))⟩,
                       ⟨"id", .ok (some (.int64 7))⟩]
                  ++ " WHERE " ++ "id" ++ " = ?" ++ "",
                argsOf "id"
                  [⟨"b", .ok (some (.int64 2))⟩, ⟨"a", .ok (some (.int64 1))⟩,
                   ⟨"id", .ok (some (.int64 7))⟩])]) := by
  exact ⟨by decide, by decide,
    c7_declaration_order "t" "id" ""
      [⟨"b", .ok (some (.int64 2))⟩, ⟨"a", .ok (some (.int64 1))⟩,
       ⟨"id", .ok (some (.int64 7))⟩] (by decide) (by decide)⟩

/-- Claim C8, amended: in revision v2 (part_001) each of PreparedExec,
QueryRow and PreparedQuery closes the statement exactly once before
returning on every path on which the prepare succeeded (on a prepare
failure no statement was obtained); the drysql.go and part_000 revisions
never close statements. -/
theorem c8_close_on_exit (q : String) (e1 : ExecEnv) (e2 : QueryRowEnv) (e3 : QueryEnv) :
    (e1.prepareErr = none →
      (preparedExecTrace_v2 q e1).1.count Event.closeStmtEv = 1)
    ∧ (e2.prepareErr = none →
      (queryRowTrace_v2 q e2).1.count Event.closeStmtEv = 1)
    ∧ (e3.prepareErr = none →
      (preparedQueryTrace_v2 q e3).1.count Event.closeStmtEv = 1) := by
  refine ⟨?_, ?_, ?_⟩
  · intro h
    simp [preparedExecTrace_v2, h, List.count_cons]
  · intro h
    simp [queryRowTrace_v2, h, List.count_cons]
  · intro h
    rcases hq : e3.queryErr with _ | e
    · simp [preparedQueryTrace_v2, h, hq, List.count_append, List.count_cons,
            runRows_no_close]
    · simp [preparedQueryTrace_v2, h, hq, List.count_cons]

/-- Claim C8 counterexample: revision v1 (drysql.go, and identically
part_000) `PreparedExec` obtains a statement (prepare succeeds) and
returns without ever closing it. -/
theorem c8_counterexample :
    (preparedExecTrace_v1 "SELECT 1" ⟨none, none⟩).1
      = [Event.prepareEv "SELECT 1", Event.execEv]
    ∧ Event.closeStmtEv ∉ (preparedExecTrace_v1 "SELECT 1" ⟨none, none⟩).1 := by
  exact ⟨rfl, by decide⟩

/-- Witness for claim C8 with all three v2 operations succeeding. -/
theorem c8_witness :
    ((⟨none, none⟩ : ExecEnv).prepareErr = none)
    ∧ (preparedExecTrace_v2 "SELECT 1" ⟨none, none⟩).1.count Event.closeStmtEv = 1
    ∧ (queryRowTrace_v2 "SELECT 1" ⟨none, none⟩).1.count Event.closeStmtEv = 1
    ∧ (preparedQueryTrace_v2 "SELECT 1" ⟨none, none, [none, none], none⟩).1.count
        Event.closeStmtEv = 1 := by
  have h := c8_close_on_exit "SELECT 1" ⟨none, none⟩ ⟨none, none⟩
    ⟨none, none, [none, none], none⟩
  exact ⟨rfl, h.1 rfl, h.2.1 rfl, h.2.2 rfl⟩

/-- Claim C9: `UpdateTableRowFromStruct` (revision v2, whose own comment
says it should not use a prepared statement) in fact calls `PreparedExec`,
so the assembled UPDATE text IS compiled into a prepared statement before
executing: the call trace begins with a Prepare of the UPDATE text. -/
theorem c9_prepares_before_exec :
    updateTrace_v2 "users" "user_id"
      [⟨"user_id", .ok (some (.int64 7))⟩, ⟨"first_name", .ok (some (.str "Ann"))⟩]
      "" ⟨none, none⟩
      = ([Event.prepareEv "UPDATE users SET first_name = ? WHERE user_id = ?",
          Event.execEv, Event.closeStmtEv], none)
    ∧ Event.prepareEv "UPDATE users SET first_name = ? WHERE user_id = ?"
        ∈ (updateTrace_v2 "users" "user_id"
            [⟨"user_id", .ok (some (.int64 7))⟩, ⟨"first_name", .ok (some (.str "Ann"))⟩]
            "" ⟨none, none⟩).1 := by
  exact ⟨rfl, by decide⟩

/-- Claim C10: a record with assignable fields but no non-absent
identifier-tagged field compiles without any missing-identifier error in
both revisions: the single executor call's final positional argument is
the nil driver value bound to the WHERE placeholder. -/
theorem c10_nil_identifier (tableName rowIdentifierTag cond : String)
    (fs : List StructField)
    (hok : ∀ f ∈ fs, isOkConv f = true)
    (hne : assignable rowIdentifierTag fs ≠ [])
    (hid : idValues rowIdentifierTag fs = []) :
    updateTableRowFromStruct_v2 tableName rowIdentifierTag fs cond =
      .ok [(mkQueryV2 tableName rowIdentifierTag (setClause rowIdentifierTag fs) cond,
            (assignable rowIdentifierTag fs).map (fun p => some p.2) ++ [none])]
    ∧ updateTableRowFromStruct_v1 tableName rowIdentifierTag fs cond =
      .ok [("UPDATE " ++ tableName ++ " SET " ++ setClause rowIdentifierTag fs ++ " WHERE "
              ++ rowIdentifierTag ++ " = ?" ++ cond,
            (assignable rowIdentifierTag fs).map (fun p => some p.2) ++ [none])]
    ∧ (argsOf rowIdentifierTag fs).getLast? = some none := by
  have hlast : lastSome (idValues rowIdentifierTag fs) none = none := by
    rw [hid]; rfl
  refine ⟨?_, ?_, ?_⟩
  · rw [updateV2_ok_spec tableName rowIdentifierTag fs cond hok hne]
    simp [argsOf, hlast]
  · rw [updateV1_ok_spec tableName rowIdentifierTag fs cond hok hne]
    simp [argsOf, hlast]
  · simp only [argsOf]
    rw [List.getLast?_concat, hlast]

/-- Witness for claim C10 at a record with no identifier-tagged field at
all. -/
theorem c10_witness :
    (∀ f ∈ ([⟨"first_name", .ok (some (.str "Ann"))⟩] : List StructField), isOkConv f = true)
    ∧ assignable "user_id" [⟨"first_name", .ok (some (.str "Ann"))⟩] ≠ []
    ∧ idValues "user_id" [⟨"first_name", .ok (some (.str "Ann"))⟩] = []
    ∧ (updateTableRowFromStruct_v2 "users" "user_id"
        [⟨"first_name", .ok (some (.str "Ann"))⟩] "" =
        .ok [(mkQueryV2 "users" "user_id"
                (setClause "user_id" [⟨"first_name", .ok (some (.str "Ann"))⟩]) "",
              (assignable "user_id" [⟨"first_name", .ok (some (.str "Ann"))⟩]).map
                (fun p => some p.2) ++ [none])]
      ∧ updateTableRowFromStruct_v1 "users" "user_id"
          [⟨"first_name", .ok (some (.str "Ann"))⟩] "" =
          .ok [("UPDATE " ++ "users" ++ " SET "
                  ++ setClause "user_id" [⟨"first_name", .ok (some (.str "Ann"))⟩]
                  ++ " WHERE " ++ "user_id" ++ " = ?" ++ "",
                (assignable "user_id" [⟨"first_name", .ok (some (.str "Ann"))⟩]).map
                  (fun p => some p.2) ++ [none])]
      ∧ (argsOf "user_id" [⟨"first_name", .ok (some (.str "Ann"))⟩]).getLast? = some none) := by
  exact ⟨by decide, by decide, by decide,
    c10_nil_identifier "users" "user_id" "" [⟨"first_name", .ok (some (.str "Ann"))⟩]
      (by decide) (by decide) (by decide)⟩
